import Mathlib

/-!
Verification of the synorchestrator submission queue / dispatcher / monitor
(`src/synorchestrator/orchestrator.py`), shallowly embedded in Lean.

The persisted JSON queue document is modelled as an association list from
endpoint id to an association list from submission id to a submission record;
`get_json` / `save_json` become explicit threading of this store value through
each operation.  Wall-clock time is modelled as an abstract tick count
(seconds) passed in explicitly; the remote WES client is modelled as an
injected function returning either a result or a connection error, mirroring
`requests.exceptions.ConnectionError`.
-/

namespace Synorchestrator

/-- A timestamp as used by `dt.datetime.now()`; fields are the calendar
components that `strftime` can render. -/
structure DateTime where
  year : Nat
  month : Nat
  day : Nat
  hour : Nat
  minute : Nat
  second : Nat
  microsecond : Nat
  deriving Repr, DecidableEq

/-- Chronological (lexicographic, most-significant-first) strict order on
calendar timestamps. -/
def dtLt (a b : DateTime) : Bool :=
  if a.year ≠ b.year then a.year < b.year
  else if a.month ≠ b.month then a.month < b.month
  else if a.day ≠ b.day then a.day < b.day
  else if a.hour ≠ b.hour then a.hour < b.hour
  else if a.minute ≠ b.minute then a.minute < b.minute
  else if a.second ≠ b.second then a.second < b.second
  else a.microsecond < b.microsecond

/-- Zero-pad the decimal rendering of a number to a given width, as the
`strftime` numeric directives do. -/
def pad (w : Nat) (n : Nat) : String :=
  let s := toString n
  String.mk (List.replicate (w - s.length) '0') ++ s

/-- The id generator of `create_submission`:
`dt.datetime.now().strftime(\x7b'%d%m%d%H%M%S%f'\x7d)` — day of month, month,
day of month again, hour, minute, second, microsecond.  Note the format
contains no year and renders the day twice. -/
def submissionId (t : DateTime) : String :=
  pad 2 t.day ++ pad 2 t.month ++ pad 2 t.day ++
    pad 2 t.hour ++ pad 2 t.minute ++ pad 2 t.second ++ pad 6 t.microsecond

/-- The `data` dict built by `queue` and consumed by `run_submission`. -/
structure SubmissionData where
  wf : String
  jsonyaml : String
  attachments : List String
  deriving Repr, DecidableEq

/-- The `run` sub-dict of a submission: `run_id` from the WES response,
`start_time` stamped by `run_submission`, and the keys `state` and
`elapsed_time` that `monitor_service` may add later (`none` models the key
being absent from the dict). -/
structure Run where
  run_id : String
  start_time : Nat
  state : Option String
  elapsed_time : Option String
  deriving Repr, DecidableEq

/-- One record of the submission queue, as written by `create_submission`;
`run` is `none` while the key is absent from the dict. -/
structure Submission where
  status : String
  data : SubmissionData
  wf_id : String
  type : String
  sample : String
  run : Option Run
  deriving Repr, DecidableEq

/-- The per-endpoint dict: submission id to record, in insertion order. -/
abbrev SubMap := List (String × Submission)

/-- The whole persisted queue document: endpoint id to per-endpoint dict. -/
abbrev Store := List (String × SubMap)

/-- Python dict lookup `d[k]` (first binding wins). -/
def alLookup {α : Type} (k : String) : List (String × α) → Option α
  | [] => none
  | (k', v) :: rest => if k' = k then some v else alLookup k rest

/-- Python dict assignment `d[k] = v`: replace the binding in place if the
key is present, append it otherwise. -/
def alInsert {α : Type} (k : String) (v : α) : List (String × α) → List (String × α)
  | [] => [(k, v)]
  | (k', w) :: rest =>
      if k' = k then (k, v) :: rest else (k', w) :: alInsert k v rest

/-- `submissions[wes_id][submission_id]`, `none` on a missing key
(Python `KeyError`). -/
def lookupSubmission (store : Store) (wes_id submission_id : String) : Option Submission :=
  (alLookup wes_id store).bind (alLookup submission_id)

/-- The fresh record that `create_submission` writes. -/
def freshSubmission (submission_data : SubmissionData)
    (wf_type wf_name sample : String) : Submission :=
  { status := "RECEIVED", data := submission_data, wf_id := wf_name,
    type := wf_type, sample := sample, run := none }

/-- `create_submission(wes_id, submission_data, wf_type, wf_name, sample)`:
derives the id from the current time, writes the RECEIVED record under
`submissions.setdefault(wes_id, \x7b\x7d)[submission_id]` and returns the id
with the saved store. -/
def create_submission (wes_id : String) (submission_data : SubmissionData)
    (wf_type wf_name sample : String) (now : DateTime) (submissions : Store) :
    String × Store :=
  let submission_id := submissionId now
  let sub := freshSubmission submission_data wf_type wf_name sample
  let endpointMap := (alLookup wes_id submissions).getD []
  (submission_id, alInsert wes_id (alInsert submission_id sub endpointMap) submissions)

/-- `get_submissions(wes_id, status)`: all ids under the endpoint whose record
has the requested status; `none` when `submissions[wes_id]` raises KeyError. -/
def get_submissions (store : Store) (wes_id : String) (status : String) :
    Option (List String) :=
  (alLookup wes_id store).map
    (fun m => (m.filter (fun p => p.2.status == status)).map (fun p => p.1))

/-- `get_submission_bundle(wes_id, submission_id)`. -/
def get_submission_bundle (store : Store) (wes_id submission_id : String) :
    Option Submission :=
  lookupSubmission store wes_id submission_id

/-- Lexicographic strict order on character lists by code point — the order
Python uses when comparing strings in `sorted`. -/
def strLtAux : List Char → List Char → Bool
  | [], [] => false
  | [], _ :: _ => true
  | _ :: _, [] => false
  | a :: as, b :: bs =>
      if a.toNat < b.toNat then true
      else if b.toNat < a.toNat then false
      else strLtAux as bs

/-- Lexicographic strict order on strings by code point. -/
def strLt (a b : String) : Bool := strLtAux a.data b.data

/-- Lexicographic reflexive order on strings by code point. -/
def strLe (a b : String) : Bool := !(strLt b a)

/-- Insert into an already-sorted list, keeping it sorted (stable). -/
def insertSorted (x : String) : List String → List String
  | [] => [x]
  | y :: ys => if strLe x y then x :: y :: ys else y :: insertSorted x ys

/-- Python `sorted` on a list of strings (insertion sort; the order is the
same for any comparison sort). -/
def sortIds : List String → List String
  | [] => []
  | x :: xs => insertSorted x (sortIds xs)

/-- `requests.exceptions.ConnectionError` raised by the remote WES client. -/
inductive RemoteError
  | connectionError
  deriving Repr, DecidableEq

/-- Exceptions an orchestrator operation can propagate: a Python `KeyError`
on a missing dict key, or an uncaught error from the remote client. -/
inductive OrchError
  | keyError
  | remote (e : RemoteError)
  deriving Repr, DecidableEq

/-- Equality of `Except` results is decidable when both components are. -/
instance exceptDecidableEq {ε α : Type} [DecidableEq ε] [DecidableEq α] :
    DecidableEq (Except ε α) := fun x y =>
  match x, y with
  | .ok a, .ok b => decidable_of_iff (a = b) (by simp)
  | .error a, .error b => decidable_of_iff (a = b) (by simp)
  | .ok _, .error _ => isFalse (by intro hc; cases hc)
  | .error _, .ok _ => isFalse (by intro hc; cases hc)

/-- The per-workflow entry of `wf_config()`, consumed by `queue`. -/
structure WorkflowConfig where
  workflow_url : String
  workflow_type : String
  workflow_attachments : List String
  deriving Repr, DecidableEq

/-- The response of `client.run_workflow`, before `run_submission` adds
`start_time`. -/
structure WorkflowStarted where
  run_id : String
  deriving Repr, DecidableEq

/-- A value assignable by `update_submission`'s dynamic
`submissions[wes_id][submission_id][param] = status`: the code only ever
stores a status string or a run dict. -/
inductive FieldValue
  | statusVal (s : String)
  | runVal (r : Run)
  deriving Repr, DecidableEq

/-- `record[param] = value` for the two fields `update_submission` is called
with; any other key would extend the dict with a key no reader consults, so
it is dropped. -/
def setField (sub : Submission) (param : String) (v : FieldValue) : Submission :=
  match param, v with
  | "status", .statusVal s => { sub with status := s }
  | "run", .runVal r => { sub with run := some r }
  | _, _ => sub

/-- `update_submission(wes_id, submission_id, param, status)`: read the
store, assign one field of one record, save; `none` on a missing key. -/
def update_submission (store : Store) (wes_id submission_id : String)
    (param : String) (value : FieldValue) : Option Store :=
  match alLookup wes_id store with
  | none => none
  | some m =>
      match alLookup submission_id m with
      | none => none
      | some sub =>
          some (alInsert wes_id
                  (alInsert submission_id (setField sub param value) m) store)

/-- `run[param] = value` for the field `update_submission_run` is called
with (`elapsed_time`; `state` kept for symmetry with the run dict keys). -/
def setRunField (r : Run) (param : String) (v : String) : Run :=
  match param with
  | "elapsed_time" => { r with elapsed_time := some v }
  | "state" => { r with state := some v }
  | _ => r

/-- `update_submission_run(wes_id, submission_id, param, status)`: read the
store, assign one field of one record's `run` dict, save; `none` when the
endpoint, the submission or its `run` key is missing. -/
def update_submission_run (store : Store) (wes_id submission_id : String)
    (param : String) (value : String) : Option Store :=
  match alLookup wes_id store with
  | none => none
  | some m =>
      match alLookup submission_id m with
      | none => none
      | some sub =>
          match sub.run with
          | none => none
          | some r =>
              some (alInsert wes_id
                      (alInsert submission_id
                        { sub with run := some (setRunField r param value) } m) store)

/-- The `submission_data` dict that `queue` passes to `create_submission`:
the attachments default to the workflow's configured ones when `attach` is
falsy (Python `if not attach`, so both `None` and the empty list). -/
def queueData (wf : WorkflowConfig) (wf_jsonyaml : String)
    (attach : Option (List String)) : SubmissionData :=
  { wf := wf.workflow_url, jsonyaml := wf_jsonyaml,
    attachments :=
      match attach with
      | none => wf.workflow_attachments
      | some [] => wf.workflow_attachments
      | some l => l }

/-- `queue(service, wf_name, wf_jsonyaml, sample, attach)`: look the workflow
up in `wf_config()` and call `create_submission`.  The propagated `KeyError`
models an unknown workflow name. -/
def queue (wf_config : String → Option WorkflowConfig) (now : DateTime)
    (service wf_name wf_jsonyaml sample : String) (attach : Option (List String))
    (store : Store) : Except OrchError String × Store :=
  match wf_config wf_name with
  | none => (.error .keyError, store)
  | some wf =>
      let r := create_submission service (queueData wf wf_jsonyaml attach)
                 wf.workflow_type wf_name sample now store
      (.ok r.1, r.2)

/-- `run_submission(wes_id, submission_id)`: load the bundle, build the WES
client from `wes_config()[wes_id]`, start the workflow remotely, stamp
`start_time`, then persist the `run` dict and the SUBMITTED status in two
writes.  The store component of the result is what is on disk when the call
returns or raises. -/
def run_submission (wes_config : String → Option String)
    (run_workflow : String → SubmissionData → Except RemoteError WorkflowStarted)
    (now : Nat) (store : Store) (wes_id submission_id : String) :
    Except OrchError Run × Store :=
  match get_submission_bundle store wes_id submission_id with
  | none => (.error .keyError, store)
  | some submission =>
      match wes_config wes_id with
      | none => (.error .keyError, store)
      | some cfg =>
          match run_workflow cfg submission.data with
          | .error e => (.error (.remote e), store)
          | .ok started =>
              let run_data : Run :=
                { run_id := started.run_id, start_time := now,
                  state := none, elapsed_time := none }
              match update_submission store wes_id submission_id "run"
                      (.runVal run_data) with
              | none => (.error .keyError, store)
              | some store1 =>
                  match update_submission store1 wes_id submission_id "status"
                          (.statusVal "SUBMITTED") with
                  | none => (.error .keyError, store1)
                  | some store2 => (.ok run_data, store2)

/-- `no_queue_run(service, wf_name, wf_jsonyaml, sample, attach)`: `queue`
then `run_submission` on the returned id; returns nothing on success.  The
queued record stays on disk even when the run step raises. -/
def no_queue_run (wf_config : String → Option WorkflowConfig)
    (wes_config : String → Option String)
    (run_workflow : String → SubmissionData → Except RemoteError WorkflowStarted)
    (nowDt : DateTime) (now : Nat) (service wf_name wf_jsonyaml sample : String)
    (attach : Option (List String)) (store : Store) :
    Except OrchError Unit × Store :=
  match queue wf_config nowDt service wf_name wf_jsonyaml sample attach store with
  | (.error e, store') => (.error e, store')
  | (.ok submission_id, store') =>
      match run_submission wes_config run_workflow now store' service submission_id with
      | (.error e, store'') => (.error e, store'')
      | (.ok _, store'') => (.ok (), store'')

/-- The result of `run_next_queued`: `nothingQueued` models the falsy
`False` returned when no RECEIVED submission exists, `ran` the run dict of
the dispatched submission. -/
inductive RunNextResult
  | nothingQueued
  | ran (run_data : Run)
  deriving Repr, DecidableEq

/-- Wrap a `run_submission` outcome as a `run_next_queued` outcome. -/
def mapRanResult : Except OrchError Run × Store → Except OrchError RunNextResult × Store
  | (.ok r, s) => (.ok (.ran r), s)
  | (.error e, s) => (.error e, s)

/-- `run_next_queued(wf_service)`: list the RECEIVED submissions, return the
falsy signal when there are none, otherwise dispatch the first id in sorted
order (the `for ... return` loop runs its body at most once). -/
def run_next_queued (wes_config : String → Option String)
    (run_workflow : String → SubmissionData → Except RemoteError WorkflowStarted)
    (now : Nat) (store : Store) (wf_service : String) :
    Except OrchError RunNextResult × Store :=
  match get_submissions store wf_service "RECEIVED" with
  | none => (.error .keyError, store)
  | some queued_submissions =>
      if queued_submissions.isEmpty then (.ok .nothingQueued, store)
      else
        match sortIds queued_submissions with
        | [] => (.ok .nothingQueued, store)
        | submission_id :: _ =>
            mapRanResult
              (run_submission wes_config run_workflow now store wf_service submission_id)

/-- Modelled from the spec: `synorchestrator.util.convert_timedelta` (the
util module is not in the sources) renders a duration, here taken in
seconds, as an hours/minutes/seconds string; the zero duration renders as
the literal the orchestrator writes when no elapsed time was ever
computed. -/
def convert_timedelta (delta : Nat) : String :=
  toString (delta / 3600) ++ "h:" ++ toString (delta % 3600 / 60) ++ "m:" ++
    toString (delta % 60) ++ "s"

/-- One row of the dataframe dict that `monitor_service` builds; a Python
`'-'` placeholder for the start time is modelled as `none` since real start
times are tick counts here. -/
structure StatusEntry where
  wf_id : String
  run_id : String
  sample_name : String
  run_status : String
  start_time : Option Nat
  elapsed_time : String
  deriving Repr, DecidableEq

/-- The row written for a submission still without a `run` key. -/
def queuedEntry (sub : Submission) : StatusEntry :=
  { wf_id := sub.wf_id, run_id := "-", sample_name := sub.sample,
    run_status := "QUEUED", start_time := none, elapsed_time := "-" }

/-- The row written by the `except ConnectionError` handler. -/
def connectionErrorEntry (sample_name : String) : StatusEntry :=
  { wf_id := "ConnectionError", run_id := "-", sample_name := sample_name,
    run_status := "-", start_time := none, elapsed_time := "-" }

/-- Prepend this iteration's row to the rest of the pass (keeping whatever
store the rest of the pass produced, or the error it raised). -/
def consEntry (p : String × StatusEntry) :
    Except OrchError (List (String × StatusEntry)) × Store →
    Except OrchError (List (String × StatusEntry)) × Store
  | (.ok l, s) => (.ok (p :: l), s)
  | (.error e, s) => (.error e, s)

/-- The non-terminal remote states recognised by the monitor. -/
def activeStates : List String := ["QUEUED", "INITIALIZING", "RUNNING"]

/-- The body of `monitor_service`'s loop over `submissions[wf_service]`,
iterating over the snapshot read at the start of the pass while threading
the persisted store through `update_submission_run`.  For a submission with
a `run` key: query the remote state (the in-snapshot assignment
`run['state'] = ...` is never persisted), recompute the elapsed time while
the state is active, otherwise keep (or zero-initialise) the previous
value, persist only `elapsed_time`, and record the row; a
`ConnectionError` from the client yields the placeholder row and leaves the
store untouched; a `KeyError` (unknown endpoint config, vanished keys)
escapes the pass. -/
def monitor_entries (wes_config : String → Option String)
    (get_status : String → String → Except RemoteError String) (now : Nat)
    (wf_service : String) :
    List (String × Submission) → Store →
    Except OrchError (List (String × StatusEntry)) × Store
  | [], store => (.ok [], store)
  | (run_id, subm) :: rest, store =>
      match subm.run with
      | none =>
          consEntry (run_id, queuedEntry subm)
            (monitor_entries wes_config get_status now wf_service rest store)
      | some run =>
          match wes_config wf_service with
          | none => (.error .keyError, store)
          | some cfg =>
              match get_status cfg run.run_id with
              | .error _ =>
                  consEntry (run_id, connectionErrorEntry subm.sample)
                    (monitor_entries wes_config get_status now wf_service rest store)
              | .ok st =>
                  let etime :=
                    if st ∈ activeStates then convert_timedelta (now - run.start_time)
                    else
                      match run.elapsed_time with
                      | none => "0h:0m:0s"
                      | some e => e
                  match update_submission_run store wf_service run_id
                          "elapsed_time" etime with
                  | none => (.error .keyError, store)
                  | some store1 =>
                      consEntry (run_id,
                          { wf_id := subm.wf_id, run_id := run.run_id,
                            sample_name := subm.sample, run_status := st,
                            start_time := some run.start_time,
                            elapsed_time := etime })
                        (monitor_entries wes_config get_status now wf_service rest store1)

/-- `monitor_service(wf_service)`: read the snapshot, walk every submission
of the endpoint, produce the status rows for this poll pass together with
the store as persisted at the end of the pass. -/
def monitor_service (wes_config : String → Option String)
    (get_status : String → String → Except RemoteError String) (now : Nat)
    (store : Store) (wf_service : String) :
    Except OrchError (List (String × StatusEntry)) × Store :=
  match alLookup wf_service store with
  | none => (.error .keyError, store)
  | some m => monitor_entries wes_config get_status now wf_service m store

/-- The loop guard of `monitor()` in `src/src/synorchestrator/orchestrator.py`:
the loop is `while True`, so the decision to poll again never inspects the
store. -/
def monitor_loop_condition (_submissions : Store) : Bool := true

/-- The per-pass `run_status` column of `monitor(submissions)` in
`src/synorchestrator/orchestrator.py`: submissions without a `run` key are
skipped (`continue`), and every other submission's status is the hardcoded
`updated_status = 'RUNNING'` (the real remote call is commented out). -/
def monitor_pass_statuses (submissions : Store) : List String :=
  (submissions.map (fun p =>
    p.2.filterMap (fun q =>
      match q.2.run with
      | none => none
      | some _ => some "RUNNING"))).flatten

/-- The recursion guard of `monitor(submissions)` in
`src/synorchestrator/orchestrator.py`: poll again iff any row's
`run_status` is an active state. -/
def monitor_continues (submissions : Store) : Bool :=
  (monitor_pass_statuses submissions).any (fun st => st ∈ activeStates)

/-- Whether every submission of the store is in a terminal state. -/
def allTerminal (store : Store) : Bool :=
  store.all (fun p => p.2.all (fun q =>
    q.2.status == "COMPLETE" || q.2.status == "ERROR"))

/-- The `run`-presence invariant for one record: the `run` key is absent
exactly when the status is RECEIVED. -/
def subOK (sub : Submission) : Bool :=
  sub.run.isNone == (sub.status == "RECEIVED")

/-- The `run`-presence invariant over an endpoint dict. -/
def mapOK (m : SubMap) : Bool := m.all (fun p => subOK p.2)

/-- The `run`-presence invariant over the whole store. -/
def runIffNotReceived (store : Store) : Bool :=
  store.all (fun p => mapOK p.2)

/-! ### Association-list lemmas -/

theorem alLookup_alInsert_self {α : Type} (k : String) (v : α)
    (m : List (String × α)) : alLookup k (alInsert k v m) = some v := by
  induction m with
  | nil => simp [alInsert, alLookup]
  | cons p rest ih =>
      obtain ⟨k1, v1⟩ := p
      by_cases h : k1 = k
      · simp [alInsert, h, alLookup]
      · simp [alInsert, h, alLookup, ih]

theorem alLookup_alInsert_ne {α : Type} (k k' : String) (v : α)
    (m : List (String × α)) (h : k ≠ k') :
    alLookup k' (alInsert k v m) = alLookup k' m := by
  induction m with
  | nil => simp [alInsert, alLookup, h]
  | cons p rest ih =>
      obtain ⟨k1, v1⟩ := p
      by_cases h1 : k1 = k
      · subst h1
        simp [alInsert, alLookup, h]
      · simp [alInsert, alLookup, h1, ih]

theorem alInsert_alInsert {α : Type} (k : String) (v w : α)
    (m : List (String × α)) :
    alInsert k v (alInsert k w m) = alInsert k v m := by
  induction m with
  | nil => simp [alInsert]
  | cons p rest ih =>
      obtain ⟨k1, v1⟩ := p
      by_cases h : k1 = k
      · simp [alInsert, h]
      · simp [alInsert, h, ih]

theorem all_alInsert {α : Type} (p : String × α → Bool) (k : String) (v : α)
    (m : List (String × α)) (hm : m.all p = true) (hv : p (k, v) = true) :
    (alInsert k v m).all p = true := by
  induction m with
  | nil => simpa [alInsert] using hv
  | cons q rest ih =>
      obtain ⟨k1, v1⟩ := q
      simp only [List.all_cons, Bool.and_eq_true] at hm
      by_cases h : k1 = k
      · simp [alInsert, h, hv, hm.2]
      · simp [alInsert, h, hm.1, ih hm.2]

/-! ### Lexicographic string order lemmas -/

theorem strLtAux_irrefl (a : List Char) : strLtAux a a = false := by
  induction a with
  | nil => rfl
  | cons c cs ih => simp [strLtAux, ih]

theorem strLtAux_trans :
    ∀ (a b c : List Char), strLtAux a b = true → strLtAux b c = true →
      strLtAux a c = true
  | [], [], _, h, _ => by simp [strLtAux] at h
  | [], _ :: _, [], _, h => by simp [strLtAux] at h
  | [], _ :: _, _ :: _, _, _ => rfl
  | _ :: _, [], _, h, _ => by simp [strLtAux] at h
  | _ :: _, _ :: _, [], _, h => by simp [strLtAux] at h
  | a :: as, b :: bs, c :: cs, h1, h2 => by
      simp only [strLtAux] at h1 h2 ⊢
      split_ifs at h1 h2 ⊢ <;>
        first
          | trivial
          | exact h1.elim
          | exact h2.elim
          | exact strLtAux_trans as bs cs h1 h2
          | (exfalso; omega)

theorem strLtAux_linear :
    ∀ (a b c : List Char), strLtAux a c = true →
      strLtAux a b = true ∨ strLtAux b c = true
  | [], [], _, h => Or.inr h
  | [], _ :: _, _, _ => Or.inl rfl
  | _ :: _, _, [], h => by simp [strLtAux] at h
  | _ :: _, [], _ :: _, _ => Or.inr rfl
  | a :: as, b :: bs, c :: cs, h => by
      simp only [strLtAux] at h ⊢
      rcases Nat.lt_trichotomy a.toNat b.toNat with hab | hab | hab
      · exact Or.inl (by simp [hab])
      · rcases Nat.lt_trichotomy b.toNat c.toNat with hbc | hbc | hbc
        · exact Or.inr (by simp [hbc])
        · have h1 : ¬ a.toNat < c.toNat := by omega
          have h2 : ¬ c.toNat < a.toNat := by omega
          rw [if_neg h1, if_neg h2] at h
          rcases strLtAux_linear as bs cs h with hr | hr
          · exact Or.inl (by simp [hab, hr])
          · exact Or.inr (by simp [hbc, hr])
        · have h2 : c.toNat < a.toNat := by omega
          rw [if_neg (by omega : ¬ a.toNat < c.toNat), if_pos h2] at h
          exact absurd h (by simp)
      · exact Or.inr (by
          have hbc : b.toNat < c.toNat := by
            by_contra hcon
            rw [if_neg (by omega : ¬ a.toNat < c.toNat)] at h
            by_cases hca : c.toNat < a.toNat
            · rw [if_pos hca] at h
              exact absurd h (by simp)
            · omega
          simp [hbc])

theorem strLe_refl (a : String) : strLe a a = true := by
  simp [strLe, strLt, strLtAux_irrefl]

theorem strLe_trans (a b c : String) (h1 : strLe a b = true)
    (h2 : strLe b c = true) : strLe a c = true := by
  simp only [strLe, Bool.not_eq_true'] at h1 h2 ⊢
  by_cases hca : strLt c a = true
  · rcases strLtAux_linear c.data b.data a.data hca with h | h
    · simp only [strLt] at h2
      rw [h2] at h
      exact absurd h (by simp)
    · simp only [strLt] at h1
      rw [h1] at h
      exact absurd h (by simp)
  · simpa using hca

theorem strLe_total (a b : String) :
    strLe a b = true ∨ strLe b a = true := by
  simp only [strLe, Bool.not_eq_true']
  by_cases h : strLt b a = true
  · right
    by_cases h' : strLt a b = true
    · have := strLtAux_trans a.data b.data a.data h' h
      rw [strLtAux_irrefl] at this
      exact absurd this (by simp)
    · simpa using h'
  · left
    simpa using h

/-! ### Sorting lemmas -/

theorem mem_insertSorted (x y : String) (l : List String) :
    y ∈ insertSorted x l ↔ y = x ∨ y ∈ l := by
  induction l with
  | nil => simp [insertSorted]
  | cons a as ih =>
      by_cases h : strLe x a = true
      · simp [insertSorted, h]
      · simp only [insertSorted, if_neg h, List.mem_cons, ih]
        tauto

theorem insertSorted_ne_nil (x : String) (l : List String) :
    insertSorted x l ≠ [] := by
  cases l with
  | nil => simp [insertSorted]
  | cons a as =>
      simp only [insertSorted]
      split <;> simp

theorem sortIds_ne_nil (x : String) (l : List String) :
    sortIds (x :: l) ≠ [] := by
  simp only [sortIds]
  exact insertSorted_ne_nil x (sortIds l)

theorem sortIds_head_min :
    ∀ (l : List String) (m : String) (t : List String), sortIds l = m :: t →
      m ∈ l ∧ ∀ x ∈ l, strLe m x = true := by
  intro l
  induction l with
  | nil => intro m t h; simp [sortIds] at h
  | cons a as ih =>
      intro m t h
      simp only [sortIds] at h
      cases hs : sortIds as with
      | nil =>
          cases as with
          | nil =>
              rw [hs] at h
              simp only [insertSorted] at h
              obtain ⟨hm, _⟩ := List.cons.inj h
              subst hm
              refine ⟨by simp, ?_⟩
              intro x hx
              simp only [List.mem_singleton] at hx
              rw [hx]
              exact strLe_refl a
          | cons b bs => exact absurd hs (sortIds_ne_nil b bs)
      | cons b bs =>
          obtain ⟨hb, hmin⟩ := ih b bs hs
          rw [hs] at h
          simp only [insertSorted] at h
          by_cases hab : strLe a b = true
          · rw [if_pos hab] at h
            obtain ⟨hm, _⟩ := List.cons.inj h
            subst hm
            refine ⟨by simp, ?_⟩
            intro x hx
            rcases List.mem_cons.mp hx with hx | hx
            · rw [hx]
              exact strLe_refl a
            · exact strLe_trans a b x hab (hmin x hx)
          · rw [if_neg hab] at h
            obtain ⟨hm, _⟩ := List.cons.inj h
            subst hm
            refine ⟨List.mem_cons_of_mem a hb, ?_⟩
            intro x hx
            rcases List.mem_cons.mp hx with hx | hx
            · rw [hx]
              rcases strLe_total a b with htot | htot
              · exact absurd htot hab
              · exact htot
            · exact hmin x hx

/-! ### Characterisations of the state-changing operations -/

/-- `run_submission` on an existing RECEIVED-or-not submission with a
configured endpoint and a successful remote start: the exact result and the
exact store written (the `run` dict first, then the SUBMITTED status). -/
theorem run_submission_ok_eq (wes_config : String → Option String)
    (run_workflow : String → SubmissionData → Except RemoteError WorkflowStarted)
    (now : Nat) (store : Store) (wes_id submission_id : String) (m : SubMap)
    (sub : Submission) (cfg : String) (started : WorkflowStarted)
    (hm : alLookup wes_id store = some m)
    (hsub : alLookup submission_id m = some sub)
    (hcfg : wes_config wes_id = some cfg)
    (hrw : run_workflow cfg sub.data = .ok started) :
    run_submission wes_config run_workflow now store wes_id submission_id =
      (.ok { run_id := started.run_id, start_time := now,
             state := none, elapsed_time := none },
       alInsert wes_id
         (alInsert submission_id
           { sub with status := "SUBMITTED",
                      run := some { run_id := started.run_id, start_time := now,
                                    state := none, elapsed_time := none } } m)
         store) := by
  have hbundle : get_submission_bundle store wes_id submission_id = some sub := by
    simp [get_submission_bundle, lookupSubmission, hm, hsub]
  simp only [run_submission, hbundle, hcfg, hrw]
  simp only [update_submission, hm, hsub, alLookup_alInsert_self, setField]
  rw [alInsert_alInsert, alInsert_alInsert]

/-- `queue` on a configured workflow name: the id returned and the store
written. -/
theorem queue_ok_eq (wf_config : String → Option WorkflowConfig) (now : DateTime)
    (service wf_name wf_jsonyaml sample : String) (attach : Option (List String))
    (store : Store) (wf : WorkflowConfig) (h : wf_config wf_name = some wf) :
    queue wf_config now service wf_name wf_jsonyaml sample attach store =
      (.ok (submissionId now),
       alInsert service
         (alInsert (submissionId now)
           (freshSubmission (queueData wf wf_jsonyaml attach)
             wf.workflow_type wf_name sample)
           ((alLookup service store).getD []))
         store) := by
  simp [queue, h, create_submission]

/-! ### Invariant-preservation lemmas -/

theorem all_alLookup {α : Type} (p : String × α → Bool) :
    ∀ (l : List (String × α)) (k : String) (v : α), l.all p = true →
      alLookup k l = some v → p (k, v) = true
  | [], _, _, _, h => by simp [alLookup] at h
  | (k1, v1) :: rest, k, v, hall, h => by
      simp only [List.all_cons, Bool.and_eq_true] at hall
      simp only [alLookup] at h
      by_cases hk : k1 = k
      · rw [if_pos hk] at h
        obtain rfl := Option.some.inj h
        rw [← hk]
        exact hall.1
      · rw [if_neg hk] at h
        exact all_alLookup p rest k v hall.2 h

theorem mapOK_of_lookup (store : Store) (k : String) (m : SubMap)
    (hs : runIffNotReceived store = true) (h : alLookup k store = some m) :
    mapOK m = true :=
  all_alLookup _ store k m hs h

theorem subOK_of_store (store : Store) (k i : String) (m : SubMap)
    (sub : Submission) (hs : runIffNotReceived store = true)
    (hm : alLookup k store = some m) (hsub : alLookup i m = some sub) :
    subOK sub = true :=
  all_alLookup _ m i sub (mapOK_of_lookup store k m hs hm) hsub

theorem inv_create (wes_id : String) (d : SubmissionData)
    (wf_type wf_name sample : String) (t : DateTime) (store : Store)
    (hs : runIffNotReceived store = true) :
    runIffNotReceived
      (create_submission wes_id d wf_type wf_name sample t store).2 = true := by
  refine all_alInsert _ _ _ _ hs ?_
  refine all_alInsert _ _ _ _ ?_ (by rfl)
  cases h : alLookup wes_id store with
  | none => simp [mapOK]
  | some m => exact mapOK_of_lookup store wes_id m hs h

theorem inv_queue (wf_config : String → Option WorkflowConfig) (now : DateTime)
    (service wf_name wf_jsonyaml sample : String) (attach : Option (List String))
    (store : Store) (hs : runIffNotReceived store = true) :
    runIffNotReceived
      (queue wf_config now service wf_name wf_jsonyaml sample attach store).2 = true := by
  cases h : wf_config wf_name with
  | none => simpa [queue, h] using hs
  | some wf =>
      rw [queue_ok_eq wf_config now service wf_name wf_jsonyaml sample attach store wf h]
      exact inv_create service _ _ wf_name sample now store hs

theorem inv_run_submission (wes_config : String → Option String)
    (run_workflow : String → SubmissionData → Except RemoteError WorkflowStarted)
    (now : Nat) (store : Store) (wes_id submission_id : String)
    (hs : runIffNotReceived store = true) :
    runIffNotReceived
      (run_submission wes_config run_workflow now store wes_id submission_id).2 = true := by
  cases hb : get_submission_bundle store wes_id submission_id with
  | none => simpa [run_submission, hb] using hs
  | some sub =>
      obtain ⟨m, hm, hsub⟩ := Option.bind_eq_some.mp hb
      cases hcfg : wes_config wes_id with
      | none => simpa [run_submission, hb, hcfg] using hs
      | some cfg =>
          cases hrw : run_workflow cfg sub.data with
          | error e => simpa [run_submission, hb, hcfg, hrw] using hs
          | ok started =>
              rw [run_submission_ok_eq wes_config run_workflow now store wes_id
                    submission_id m sub cfg started hm hsub hcfg hrw]
              refine all_alInsert _ _ _ _ hs ?_
              refine all_alInsert _ _ _ _
                (mapOK_of_lookup store wes_id m hs hm) (by rfl)

theorem inv_update_submission_run (store : Store) (wes_id submission_id : String)
    (param value : String) (store' : Store)
    (hs : runIffNotReceived store = true)
    (h : update_submission_run store wes_id submission_id param value = some store') :
    runIffNotReceived store' = true := by
  cases hm : alLookup wes_id store with
  | none => simp [update_submission_run, hm] at h
  | some m =>
      cases hsub : alLookup submission_id m with
      | none => simp [update_submission_run, hm, hsub] at h
      | some sub =>
          cases hrun : sub.run with
          | none => simp [update_submission_run, hm, hsub, hrun] at h
          | some r =>
              simp only [update_submission_run, hm, hsub, hrun,
                Option.some.injEq] at h
              subst h
              have hOK := subOK_of_store store wes_id submission_id m sub hs hm hsub
              simp only [subOK, hrun, Option.isNone_some] at hOK
              refine all_alInsert _ _ _ _ hs ?_
              refine all_alInsert _ _ _ _
                (mapOK_of_lookup store wes_id m hs hm) ?_
              simp only [subOK, Option.isNone_some]
              exact hOK

theorem consEntry_snd (p : String × StatusEntry)
    (r : Except OrchError (List (String × StatusEntry)) × Store) :
    (consEntry p r).2 = r.2 := by
  obtain ⟨res, s⟩ := r
  cases res <;> rfl

theorem inv_monitor_entries (wes_config : String → Option String)
    (get_status : String → String → Except RemoteError String) (now : Nat)
    (wf_service : String) :
    ∀ (entries : List (String × Submission)) (store : Store),
      runIffNotReceived store = true →
      runIffNotReceived
        (monitor_entries wes_config get_status now wf_service entries store).2 = true
  | [], _, hs => hs
  | (run_id, subm) :: rest, store, hs => by
      cases hrun : subm.run with
      | none =>
          simp only [monitor_entries, hrun, consEntry_snd]
          exact inv_monitor_entries wes_config get_status now wf_service rest store hs
      | some run =>
          cases hcfg : wes_config wf_service with
          | none => simpa only [monitor_entries, hrun, hcfg] using hs
          | some cfg =>
              cases hst : get_status cfg run.run_id with
              | error e =>
                  simp only [monitor_entries, hrun, hcfg, hst, consEntry_snd]
                  exact inv_monitor_entries wes_config get_status now wf_service rest store hs
              | ok st =>
                  cases hupd : update_submission_run store wf_service run_id
                      "elapsed_time"
                      (if st ∈ activeStates then convert_timedelta (now - run.start_time)
                       else
                         match run.elapsed_time with
                         | none => "0h:0m:0s"
                         | some e => e) with
                  | none => simpa only [monitor_entries, hrun, hcfg, hst, hupd] using hs
                  | some store1 =>
                      simp only [monitor_entries, hrun, hcfg, hst, hupd, consEntry_snd]
                      exact inv_monitor_entries wes_config get_status now wf_service
                        rest store1
                        (inv_update_submission_run store wf_service run_id _ _ store1 hs hupd)

theorem inv_monitor_service (wes_config : String → Option String)
    (get_status : String → String → Except RemoteError String) (now : Nat)
    (store : Store) (wf_service : String)
    (hs : runIffNotReceived store = true) :
    runIffNotReceived
      (monitor_service wes_config get_status now store wf_service).2 = true := by
  cases hm : alLookup wf_service store with
  | none => simpa [monitor_service, hm] using hs
  | some m =>
      simp only [monitor_service, hm]
      exact inv_monitor_entries wes_config get_status now wf_service m store hs

/-! ### A filtered dict with its only RECEIVED entry overwritten -/

theorem filter_received_alInsert :
    ∀ (m : SubMap) (i : String) (v : Submission),
      (m.map Prod.fst).Nodup →
      (v.status == "RECEIVED") = false →
      ((m.filter (fun p => p.2.status == "RECEIVED")).map (fun p => p.1)) = [i] →
      (((alInsert i v m).filter (fun p => p.2.status == "RECEIVED")).map
        (fun p => p.1)) = [] := by
  intro m
  induction m with
  | nil => intro i v _ _ hm; simp at hm
  | cons q rest ih =>
      obtain ⟨k, s⟩ := q
      intro i v hnd hv hm
      simp only [List.map_cons, List.nodup_cons] at hnd
      by_cases hk : k = i
      · subst hk
        cases hP : s.status == "RECEIVED" with
        | true =>
            simp [List.filter_cons, hP, List.cons.injEq] at hm
            simp [alInsert, List.filter_cons, hv]
            exact hm
        | false =>
            simp [List.filter_cons, hP] at hm
            have hmem : k ∈ rest.map Prod.fst := by
              have h1 : k ∈ (rest.filter (fun p => p.2.status == "RECEIVED")).map
                  (fun p => p.1) := by
                rw [hm]; simp
              obtain ⟨p, hp, hfst⟩ := List.mem_map.mp h1
              exact List.mem_map.mpr ⟨p, List.mem_of_mem_filter hp, hfst⟩
            exact absurd hmem hnd.1
      · cases hP : s.status == "RECEIVED" with
        | true =>
            simp [List.filter_cons, hP, List.cons.injEq] at hm
            exact absurd hm.1 hk
        | false =>
            simp [List.filter_cons, hP] at hm
            have halins : alInsert i v ((k, s) :: rest) = (k, s) :: alInsert i v rest := by
              simp [alInsert, hk]
            rw [halins, List.filter_cons, if_neg (by simp [hP])]
            exact ih i v hnd.2 hv hm

/-! ## Claim theorems -/

/-- Claim C1: the spec asserts that for every two submissions created in
sequence on the same endpoint, the later id is strictly greater as a string,
so ascending id order equals creation order.  The id format
`%d%m%d%H%M%S%f` has no year and leads with the day of month, so the claim
fails: creating at 2018-03-31 23:59:59.000000 and then at
2018-04-01 00:00:00.000000 gives a chronologically later id that is
lexicographically strictly smaller, and the same wall-clock reading one
year apart yields exactly equal ids. -/
theorem C1_submission_ids_not_monotonic :
    dtLt ⟨2018, 3, 31, 23, 59, 59, 0⟩ ⟨2018, 4, 1, 0, 0, 0, 0⟩ = true ∧
    submissionId ⟨2018, 3, 31, 23, 59, 59, 0⟩ = "310331235959000000" ∧
    submissionId ⟨2018, 4, 1, 0, 0, 0, 0⟩ = "010401000000000000" ∧
    strLt (submissionId ⟨2018, 4, 1, 0, 0, 0, 0⟩)
      (submissionId ⟨2018, 3, 31, 23, 59, 59, 0⟩) = true ∧
    dtLt ⟨2018, 3, 5, 1, 2, 3, 4⟩ ⟨2019, 3, 5, 1, 2, 3, 4⟩ = true ∧
    submissionId ⟨2018, 3, 5, 1, 2, 3, 4⟩ = submissionId ⟨2019, 3, 5, 1, 2, 3, 4⟩ := by
  decide

/-- Claim C2, counterexample: `create_submission` does not fail with a
`DuplicateId` error when the generated id already exists for the endpoint —
it returns the id normally and silently replaces the pre-existing record
(here a SUBMITTED record with a run) by the fresh RECEIVED one. -/
theorem C2_counterexample :
    let t : DateTime := ⟨2018, 4, 8, 13, 2, 1, 818647⟩
    let old : Submission :=
      { status := "SUBMITTED",
        data := { wf := "wfold", jsonyaml := "jold", attachments := [] },
        wf_id := "w0", type := "CWL", sample := "NA",
        run := some { run_id := "r0", start_time := 5,
                      state := none, elapsed_time := none } }
    let d : SubmissionData := { wf := "wf1", jsonyaml := "j1", attachments := ["a1"] }
    let s0 : Store := [("local", [(submissionId t, old)])]
    (create_submission "local" d "CWL" "w1" "NA" t s0).1 = submissionId t ∧
    lookupSubmission (create_submission "local" d "CWL" "w1" "NA" t s0).2
        "local" (submissionId t) = some (freshSubmission d "CWL" "w1" "NA") ∧
    freshSubmission d "CWL" "w1" "NA" ≠ old := by
  decide

/-- Claim C2 (amended): when the id generated by `create_submission`
already maps to a record for that endpoint, the call returns the id
normally and overwrites the pre-existing record with the fresh RECEIVED
one; no duplicate check exists. -/
theorem C2_create_overwrites_colliding_id (wes_id : String) (d : SubmissionData)
    (wf_type wf_name sample : String) (now : DateTime) (store : Store)
    (m : SubMap) (old : Submission)
    (hm : alLookup wes_id store = some m)
    (_hold : alLookup (submissionId now) m = some old) :
    (create_submission wes_id d wf_type wf_name sample now store).1 = submissionId now ∧
    lookupSubmission (create_submission wes_id d wf_type wf_name sample now store).2
      wes_id (submissionId now) = some (freshSubmission d wf_type wf_name sample) := by
  refine ⟨rfl, ?_⟩
  simp [create_submission, lookupSubmission, hm, alLookup_alInsert_self]

/-- Witness for the amended C2 at a concrete colliding store. -/
theorem C2_create_overwrites_colliding_id_witness :
    (create_submission "wes1" { wf := "wf2", jsonyaml := "j2", attachments := [] }
        "CWL" "w2" "s2" ⟨2018, 4, 8, 13, 2, 1, 818647⟩
        [("wes1", [(submissionId ⟨2018, 4, 8, 13, 2, 1, 818647⟩,
          freshSubmission { wf := "o", jsonyaml := "o", attachments := [] }
            "CWL" "wOld" "NA")])]).1
      = submissionId ⟨2018, 4, 8, 13, 2, 1, 818647⟩ ∧
    lookupSubmission
      (create_submission "wes1" { wf := "wf2", jsonyaml := "j2", attachments := [] }
        "CWL" "w2" "s2" ⟨2018, 4, 8, 13, 2, 1, 818647⟩
        [("wes1", [(submissionId ⟨2018, 4, 8, 13, 2, 1, 818647⟩,
          freshSubmission { wf := "o", jsonyaml := "o", attachments := [] }
            "CWL" "wOld" "NA")])]).2
      "wes1" (submissionId ⟨2018, 4, 8, 13, 2, 1, 818647⟩)
      = some (freshSubmission { wf := "wf2", jsonyaml := "j2", attachments := [] }
          "CWL" "w2" "s2") :=
  C2_create_overwrites_colliding_id "wes1"
    { wf := "wf2", jsonyaml := "j2", attachments := [] } "CWL" "w2" "s2"
    ⟨2018, 4, 8, 13, 2, 1, 818647⟩
    [("wes1", [(submissionId ⟨2018, 4, 8, 13, 2, 1, 818647⟩,
      freshSubmission { wf := "o", jsonyaml := "o", attachments := [] }
        "CWL" "wOld" "NA")])]
    [(submissionId ⟨2018, 4, 8, 13, 2, 1, 818647⟩,
      freshSubmission { wf := "o", jsonyaml := "o", attachments := [] }
        "CWL" "wOld" "NA")]
    (freshSubmission { wf := "o", jsonyaml := "o", attachments := [] }
      "CWL" "wOld" "NA")
    (by decide) (by decide)

/-- Claim C3, counterexample: `run_submission` performs no state-machine
check.  On a submission whose status is COMPLETE it does not fail with an
`InvalidStateTransition`: it invokes the remote start, succeeds, and
rewrites the persisted store. -/
theorem C3_counterexample :
    let sub : Submission :=
      { status := "COMPLETE",
        data := { wf := "wfc", jsonyaml := "jc", attachments := ["ac"] },
        wf_id := "w3", type := "CWL", sample := "NA",
        run := some { run_id := "r1", start_time := 5,
                      state := some "COMPLETE", elapsed_time := some "0h:1m:0s" } }
    let s0 : Store := [("local", [("id1", sub)])]
    (run_submission (fun _ => some "cfg") (fun _ _ => .ok { run_id := "r2" })
        7 s0 "local" "id1").1 =
      .ok { run_id := "r2", start_time := 7, state := none, elapsed_time := none } ∧
    (run_submission (fun _ => some "cfg") (fun _ _ => .ok { run_id := "r2" })
        7 s0 "local" "id1").2 ≠ s0 ∧
    lookupSubmission
      (run_submission (fun _ => some "cfg") (fun _ _ => .ok { run_id := "r2" })
        7 s0 "local" "id1").2 "local" "id1" =
      some { sub with status := "SUBMITTED",
                      run := some { run_id := "r2", start_time := 7,
                                    state := none, elapsed_time := none } } := by
  decide

/-- Claim C3 (amended): `run_submission` ignores the submission's current
status entirely.  For a stored submission in any status, with a configured
endpoint and a successful remote start, it returns the new run dict and
persists it together with the SUBMITTED status, overwriting whatever was
there. -/
theorem C3_run_submission_ignores_status (wes_config : String → Option String)
    (run_workflow : String → SubmissionData → Except RemoteError WorkflowStarted)
    (now : Nat) (store : Store) (wes_id submission_id : String) (m : SubMap)
    (sub : Submission) (cfg : String) (started : WorkflowStarted)
    (hm : alLookup wes_id store = some m)
    (hsub : alLookup submission_id m = some sub)
    (hcfg : wes_config wes_id = some cfg)
    (hrw : run_workflow cfg sub.data = .ok started) :
    (run_submission wes_config run_workflow now store wes_id submission_id).1 =
      .ok { run_id := started.run_id, start_time := now,
            state := none, elapsed_time := none } ∧
    lookupSubmission
      (run_submission wes_config run_workflow now store wes_id submission_id).2
      wes_id submission_id =
      some { sub with status := "SUBMITTED",
                      run := some { run_id := started.run_id, start_time := now,
                                    state := none, elapsed_time := none } } := by
  rw [run_submission_ok_eq wes_config run_workflow now store wes_id submission_id
        m sub cfg started hm hsub hcfg hrw]
  refine ⟨rfl, ?_⟩
  simp [lookupSubmission, alLookup_alInsert_self]

/-- Witness for the amended C3: a COMPLETE submission is re-dispatched. -/
theorem C3_run_submission_ignores_status_witness :
    (run_submission (fun _ => some "cfg") (fun _ _ => .ok { run_id := "r9" }) 11
        [("e1", [("i1",
          { status := "COMPLETE",
            data := { wf := "wfc", jsonyaml := "jc", attachments := [] },
            wf_id := "w", type := "CWL", sample := "NA",
            run := some { run_id := "r1", start_time := 5,
                          state := none, elapsed_time := none } })])]
        "e1" "i1").1 =
      .ok { run_id := "r9", start_time := 11, state := none, elapsed_time := none } ∧
    lookupSubmission
      (run_submission (fun _ => some "cfg") (fun _ _ => .ok { run_id := "r9" }) 11
        [("e1", [("i1",
          { status := "COMPLETE",
            data := { wf := "wfc", jsonyaml := "jc", attachments := [] },
            wf_id := "w", type := "CWL", sample := "NA",
            run := some { run_id := "r1", start_time := 5,
                          state := none, elapsed_time := none } })])]
        "e1" "i1").2 "e1" "i1" =
      some { status := "SUBMITTED",
             data := { wf := "wfc", jsonyaml := "jc", attachments := [] },
             wf_id := "w", type := "CWL", sample := "NA",
             run := some { run_id := "r9", start_time := 11,
                           state := none, elapsed_time := none } } :=
  C3_run_submission_ignores_status (fun _ => some "cfg")
    (fun _ _ => .ok { run_id := "r9" }) 11
    [("e1", [("i1",
      { status := "COMPLETE",
        data := { wf := "wfc", jsonyaml := "jc", attachments := [] },
        wf_id := "w", type := "CWL", sample := "NA",
        run := some { run_id := "r1", start_time := 5,
                      state := none, elapsed_time := none } })])]
    "e1" "i1"
    [("i1",
      { status := "COMPLETE",
        data := { wf := "wfc", jsonyaml := "jc", attachments := [] },
        wf_id := "w", type := "CWL", sample := "NA",
        run := some { run_id := "r1", start_time := 5,
                      state := none, elapsed_time := none } })]
    { status := "COMPLETE",
      data := { wf := "wfc", jsonyaml := "jc", attachments := [] },
      wf_id := "w", type := "CWL", sample := "NA",
      run := some { run_id := "r1", start_time := 5,
                    state := none, elapsed_time := none } }
    "cfg" { run_id := "r9" } (by decide) (by decide) rfl rfl

/-- Claim C9: the spec asserts the monitor loop stops once every submission
is terminal.  In `src/src/synorchestrator/orchestrator.py` the loop is a
bare `while True` (its guard never inspects the store), and in
`src/synorchestrator/orchestrator.py` the recursion guard always sees the
hardcoded `RUNNING` status for any submission with a run, so on a store
whose only submission is COMPLETE (with its run present) both variants
poll again instead of stopping. -/
theorem C9_monitor_loops_forever_on_terminal_store :
    let s : Store :=
      [("local",
        [("040804130201818647",
          { status := "COMPLETE",
            data := { wf := "wf0", jsonyaml := "j0", attachments := [] },
            wf_id := "wflow0", type := "CWL", sample := "NA",
            run := some { run_id := "r1", start_time := 0,
                          state := some "COMPLETE",
                          elapsed_time := some "0h:5m:0s" } })])]
    allTerminal s = true ∧ monitor_loop_condition s = true ∧
      monitor_continues s = true := by
  decide

/-- Claim C10: `queue` called with an explicitly supplied but empty
attachments list behaves exactly as if no attachments argument had been
supplied — Python's `if not attach` treats `[]` and `None` alike, so the
whole result (returned id or error, and persisted store) coincides. -/
theorem C10_empty_attachments_same_as_none
    (wf_config : String → Option WorkflowConfig) (now : DateTime)
    (service wf_name wf_jsonyaml sample : String) (store : Store) :
    queue wf_config now service wf_name wf_jsonyaml sample (some []) store =
      queue wf_config now service wf_name wf_jsonyaml sample none store := by
  cases h : wf_config wf_name <;> simp [queue, h, queueData]

/-- Claim C5: when the remote status call raises a `ConnectionError`
during a poll, the persisted store is left exactly as it was (so
`run.state`, `elapsed_time` and `status` are unchanged), the snapshot
records the placeholder "unreachable" row for that submission, and the
pass continues over the remaining submissions with the same store instead
of aborting. -/
theorem C5_connection_error_leaves_store (wes_config : String → Option String)
    (get_status : String → String → Except RemoteError String) (now : Nat)
    (wf_service i : String) (sub : Submission) (r : Run)
    (rest : List (String × Submission)) (store : Store) (cfg : String)
    (hrun : sub.run = some r)
    (hcfg : wes_config wf_service = some cfg)
    (hst : get_status cfg r.run_id = .error .connectionError) :
    monitor_entries wes_config get_status now wf_service ((i, sub) :: rest) store =
      consEntry (i, connectionErrorEntry sub.sample)
        (monitor_entries wes_config get_status now wf_service rest store) ∧
    monitor_entries wes_config get_status now wf_service [(i, sub)] store =
      (.ok [(i, connectionErrorEntry sub.sample)], store) := by
  constructor
  · simp only [monitor_entries, hrun, hcfg, hst]
  · simp only [monitor_entries, hrun, hcfg, hst, consEntry]

/-- Witness for C5 at a concrete submission and an always-unreachable
remote. -/
theorem C5_connection_error_leaves_store_witness :
    monitor_entries (fun _ => some "c") (fun _ _ => .error .connectionError) 50
        "local"
        [("i5",
          { status := "SUBMITTED",
            data := { wf := "wf5", jsonyaml := "j5", attachments := [] },
            wf_id := "w5", type := "CWL", sample := "samp5",
            run := some { run_id := "r5", start_time := 10,
                          state := some "RUNNING",
                          elapsed_time := some "0h:0m:30s" } })]
        [("local",
          [("i5",
            { status := "SUBMITTED",
              data := { wf := "wf5", jsonyaml := "j5", attachments := [] },
              wf_id := "w5", type := "CWL", sample := "samp5",
              run := some { run_id := "r5", start_time := 10,
                            state := some "RUNNING",
                            elapsed_time := some "0h:0m:30s" } })])] =
      consEntry ("i5", connectionErrorEntry "samp5")
        (monitor_entries (fun _ => some "c") (fun _ _ => .error .connectionError)
          50 "local" []
          [("local",
            [("i5",
              { status := "SUBMITTED",
                data := { wf := "wf5", jsonyaml := "j5", attachments := [] },
                wf_id := "w5", type := "CWL", sample := "samp5",
                run := some { run_id := "r5", start_time := 10,
                              state := some "RUNNING",
                              elapsed_time := some "0h:0m:30s" } })])]) ∧
    monitor_entries (fun _ => some "c") (fun _ _ => .error .connectionError) 50
        "local"
        [("i5",
          { status := "SUBMITTED",
            data := { wf := "wf5", jsonyaml := "j5", attachments := [] },
            wf_id := "w5", type := "CWL", sample := "samp5",
            run := some { run_id := "r5", start_time := 10,
                          state := some "RUNNING",
                          elapsed_time := some "0h:0m:30s" } })]
        [("local",
          [("i5",
            { status := "SUBMITTED",
              data := { wf := "wf5", jsonyaml := "j5", attachments := [] },
              wf_id := "w5", type := "CWL", sample := "samp5",
              run := some { run_id := "r5", start_time := 10,
                            state := some "RUNNING",
                            elapsed_time := some "0h:0m:30s" } })])] =
      (.ok [("i5", connectionErrorEntry "samp5")],
       [("local",
         [("i5",
           { status := "SUBMITTED",
             data := { wf := "wf5", jsonyaml := "j5", attachments := [] },
             wf_id := "w5", type := "CWL", sample := "samp5",
             run := some { run_id := "r5", start_time := 10,
                           state := some "RUNNING",
                           elapsed_time := some "0h:0m:30s" } })])]) :=
  C5_connection_error_leaves_store (fun _ => some "c")
    (fun _ _ => .error .connectionError) 50 "local" "i5"
    { status := "SUBMITTED",
      data := { wf := "wf5", jsonyaml := "j5", attachments := [] },
      wf_id := "w5", type := "CWL", sample := "samp5",
      run := some { run_id := "r5", start_time := 10,
                    state := some "RUNNING", elapsed_time := some "0h:0m:30s" } }
    { run_id := "r5", start_time := 10,
      state := some "RUNNING", elapsed_time := some "0h:0m:30s" }
    []
    [("local",
      [("i5",
        { status := "SUBMITTED",
          data := { wf := "wf5", jsonyaml := "j5", attachments := [] },
          wf_id := "w5", type := "CWL", sample := "samp5",
          run := some { run_id := "r5", start_time := 10,
                        state := some "RUNNING",
                        elapsed_time := some "0h:0m:30s" } })])]
    "c" rfl rfl rfl

/-- Claim C4, counterexample: a poll that observes the terminal remote
state COMPLETE does freeze the elapsed time, but it does not advance the
submission's persisted status to COMPLETE — the status stays SUBMITTED
(and even the observed remote state is never persisted into `run.state`). -/
theorem C4_counterexample :
    let sub : Submission :=
      { status := "SUBMITTED",
        data := { wf := "wf4", jsonyaml := "j4", attachments := [] },
        wf_id := "w4", type := "CWL", sample := "NA",
        run := some { run_id := "r4", start_time := 100,
                      state := some "RUNNING", elapsed_time := some "0h:5m:0s" } }
    let s4 : Store := [("local", [("i4", sub)])]
    (lookupSubmission
        (monitor_service (fun _ => some "cfg") (fun _ _ => .ok "COMPLETE")
          1000 s4 "local").2 "local" "i4").map (fun s => s.status) =
      some "SUBMITTED" ∧
    ¬ ((lookupSubmission
        (monitor_service (fun _ => some "cfg") (fun _ _ => .ok "COMPLETE")
          1000 s4 "local").2 "local" "i4").map (fun s => s.status) =
      some "COMPLETE") ∧
    (lookupSubmission
        (monitor_service (fun _ => some "cfg") (fun _ _ => .ok "COMPLETE")
          1000 s4 "local").2 "local" "i4").map (fun s => s.run) =
      some (some { run_id := "r4", start_time := 100,
                   state := some "RUNNING", elapsed_time := some "0h:5m:0s" }) := by
  decide

/-- Claim C4 (amended): when a status poll observes a terminal
(non-active) remote state for a submission with a run record, it freezes
`elapsed_time` at its last persisted value (or the zero string
`0h:0m:0s` if none was ever computed) and persists exactly that; the
submission's `status` field is left unchanged and the observed remote
state appears only in the returned snapshot row, not in the persisted
`run.state`. -/
theorem C4_terminal_poll_freezes_elapsed_only (wes_config : String → Option String)
    (get_status : String → String → Except RemoteError String) (now : Nat)
    (wf_service i : String) (sub : Submission) (r : Run) (st : String)
    (m : SubMap) (store : Store) (cfg : String)
    (hrun : sub.run = some r)
    (hcfg : wes_config wf_service = some cfg)
    (hst : get_status cfg r.run_id = .ok st)
    (hterm : st ∉ activeStates)
    (hm : alLookup wf_service store = some m)
    (hsub : alLookup i m = some sub) :
    monitor_entries wes_config get_status now wf_service [(i, sub)] store =
      (.ok [(i, { wf_id := sub.wf_id, run_id := r.run_id,
                  sample_name := sub.sample, run_status := st,
                  start_time := some r.start_time,
                  elapsed_time := r.elapsed_time.getD "0h:0m:0s" })],
       alInsert wf_service
         (alInsert i
           { sub with
             run := some { r with elapsed_time := some (r.elapsed_time.getD "0h:0m:0s") } } m)
         store) ∧
    lookupSubmission
      (monitor_entries wes_config get_status now wf_service [(i, sub)] store).2
      wf_service i =
      some { sub with
             run := some { r with elapsed_time := some (r.elapsed_time.getD "0h:0m:0s") } } := by
  have h1 : monitor_entries wes_config get_status now wf_service [(i, sub)] store =
      (.ok [(i, { wf_id := sub.wf_id, run_id := r.run_id,
                  sample_name := sub.sample, run_status := st,
                  start_time := some r.start_time,
                  elapsed_time := r.elapsed_time.getD "0h:0m:0s" })],
       alInsert wf_service
         (alInsert i
           { sub with
             run := some { r with elapsed_time := some (r.elapsed_time.getD "0h:0m:0s") } } m)
         store) := by
    cases hre : r.elapsed_time with
    | none =>
        simp only [monitor_entries, hrun, hcfg, hst, if_neg hterm, hre,
          update_submission_run, hm, hsub, setRunField, consEntry,
          Option.getD_none]
    | some e0 =>
        simp only [monitor_entries, hrun, hcfg, hst, if_neg hterm, hre,
          update_submission_run, hm, hsub, setRunField, consEntry,
          Option.getD_some]
  refine ⟨h1, ?_⟩
  rw [h1]
  simp [lookupSubmission, alLookup_alInsert_self]

/-- Witness for the amended C4: a SUBMITTED submission polled as COMPLETE
keeps its status and its previous elapsed time. -/
theorem C4_terminal_poll_freezes_elapsed_only_witness :
    monitor_entries (fun _ => some "cfg") (fun _ _ => .ok "COMPLETE") 1000
        "local"
        [("i4",
          { status := "SUBMITTED",
            data := { wf := "wf4", jsonyaml := "j4", attachments := [] },
            wf_id := "w4", type := "CWL", sample := "NA",
            run := some { run_id := "r4", start_time := 100,
                          state := some "RUNNING",
                          elapsed_time := some "0h:5m:0s" } })]
        [("local",
          [("i4",
            { status := "SUBMITTED",
              data := { wf := "wf4", jsonyaml := "j4", attachments := [] },
              wf_id := "w4", type := "CWL", sample := "NA",
              run := some { run_id := "r4", start_time := 100,
                            state := some "RUNNING",
                            elapsed_time := some "0h:5m:0s" } })])] =
      (.ok [("i4", { wf_id := "w4", run_id := "r4", sample_name := "NA",
                     run_status := "COMPLETE", start_time := some 100,
                     elapsed_time :=
                       (some "0h:5m:0s" : Option String).getD "0h:0m:0s" })],
       alInsert "local"
         (alInsert "i4"
           { status := "SUBMITTED",
             data := { wf := "wf4", jsonyaml := "j4", attachments := [] },
             wf_id := "w4", type := "CWL", sample := "NA",
             run := some { run_id := "r4", start_time := 100,
                           state := some "RUNNING",
                           elapsed_time :=
                             some ((some "0h:5m:0s" : Option String).getD
                               "0h:0m:0s") } }
           [("i4",
             { status := "SUBMITTED",
               data := { wf := "wf4", jsonyaml := "j4", attachments := [] },
               wf_id := "w4", type := "CWL", sample := "NA",
               run := some { run_id := "r4", start_time := 100,
                             state := some "RUNNING",
                             elapsed_time := some "0h:5m:0s" } })])
         [("local",
           [("i4",
             { status := "SUBMITTED",
               data := { wf := "wf4", jsonyaml := "j4", attachments := [] },
               wf_id := "w4", type := "CWL", sample := "NA",
               run := some { run_id := "r4", start_time := 100,
                             state := some "RUNNING",
                             elapsed_time := some "0h:5m:0s" } })])]) ∧
    lookupSubmission
      (monitor_entries (fun _ => some "cfg") (fun _ _ => .ok "COMPLETE") 1000
        "local"
        [("i4",
          { status := "SUBMITTED",
            data := { wf := "wf4", jsonyaml := "j4", attachments := [] },
            wf_id := "w4", type := "CWL", sample := "NA",
            run := some { run_id := "r4", start_time := 100,
                          state := some "RUNNING",
                          elapsed_time := some "0h:5m:0s" } })]
        [("local",
          [("i4",
            { status := "SUBMITTED",
              data := { wf := "wf4", jsonyaml := "j4", attachments := [] },
              wf_id := "w4", type := "CWL", sample := "NA",
              run := some { run_id := "r4", start_time := 100,
                            state := some "RUNNING",
                            elapsed_time := some "0h:5m:0s" } })])]).2
      "local" "i4" =
      some { status := "SUBMITTED",
             data := { wf := "wf4", jsonyaml := "j4", attachments := [] },
             wf_id := "w4", type := "CWL", sample := "NA",
             run := some { run_id := "r4", start_time := 100,
                           state := some "RUNNING",
                           elapsed_time :=
                             some ((some "0h:5m:0s" : Option String).getD
                               "0h:0m:0s") } } :=
  C4_terminal_poll_freezes_elapsed_only (fun _ => some "cfg")
    (fun _ _ => .ok "COMPLETE") 1000 "local" "i4"
    { status := "SUBMITTED",
      data := { wf := "wf4", jsonyaml := "j4", attachments := [] },
      wf_id := "w4", type := "CWL", sample := "NA",
      run := some { run_id := "r4", start_time := 100,
                    state := some "RUNNING", elapsed_time := some "0h:5m:0s" } }
    { run_id := "r4", start_time := 100,
      state := some "RUNNING", elapsed_time := some "0h:5m:0s" }
    "COMPLETE"
    [("i4",
      { status := "SUBMITTED",
        data := { wf := "wf4", jsonyaml := "j4", attachments := [] },
        wf_id := "w4", type := "CWL", sample := "NA",
        run := some { run_id := "r4", start_time := 100,
                      state := some "RUNNING",
                      elapsed_time := some "0h:5m:0s" } })]
    [("local",
      [("i4",
        { status := "SUBMITTED",
          data := { wf := "wf4", jsonyaml := "j4", attachments := [] },
          wf_id := "w4", type := "CWL", sample := "NA",
          run := some { run_id := "r4", start_time := 100,
                        state := some "RUNNING",
                        elapsed_time := some "0h:5m:0s" } })])]
    "cfg" rfl rfl rfl (by decide) rfl rfl

/-- Claim C8: when the remote start-run call fails during dispatch, the
failure propagates to the caller unmodified and the persisted store is the
one from before the dispatch — no run record is written and the
submission's status is untouched (so a RECEIVED submission stays RECEIVED
for retry).  For `no_queue_run` (queue-then-run) the queued record is
already persisted and remains RECEIVED with no run after the failed run
step. -/
theorem C8_remote_failure_propagates_and_leaves_received :
    (∀ (wes_config : String → Option String)
       (run_workflow : String → SubmissionData → Except RemoteError WorkflowStarted)
       (now : Nat) (store : Store) (wes_id submission_id : String)
       (sub : Submission) (cfg : String) (e : RemoteError),
       get_submission_bundle store wes_id submission_id = some sub →
       wes_config wes_id = some cfg →
       run_workflow cfg sub.data = .error e →
       run_submission wes_config run_workflow now store wes_id submission_id =
         (.error (.remote e), store)) ∧
    (∀ (wf_config : String → Option WorkflowConfig)
       (wes_config : String → Option String)
       (run_workflow : String → SubmissionData → Except RemoteError WorkflowStarted)
       (nowDt : DateTime) (now : Nat)
       (service wf_name wf_jsonyaml sample : String)
       (attach : Option (List String)) (store : Store)
       (wf : WorkflowConfig) (cfg : String) (e : RemoteError),
       wf_config wf_name = some wf →
       wes_config service = some cfg →
       run_workflow cfg (queueData wf wf_jsonyaml attach) = .error e →
       no_queue_run wf_config wes_config run_workflow nowDt now service wf_name
           wf_jsonyaml sample attach store =
         (.error (.remote e),
          (queue wf_config nowDt service wf_name wf_jsonyaml sample attach store).2) ∧
       lookupSubmission
         (no_queue_run wf_config wes_config run_workflow nowDt now service
           wf_name wf_jsonyaml sample attach store).2
         service (submissionId nowDt) =
         some (freshSubmission (queueData wf wf_jsonyaml attach)
           wf.workflow_type wf_name sample)) := by
  constructor
  · intro wes_config run_workflow now store wes_id submission_id sub cfg e hb hcfg hrw
    simp only [run_submission, hb, hcfg, hrw]
  · intro wf_config wes_config run_workflow nowDt now service wf_name wf_jsonyaml
      sample attach store wf cfg e hwf hcfg hrw
    have hq := queue_ok_eq wf_config nowDt service wf_name wf_jsonyaml sample
      attach store wf hwf
    have hbundle : get_submission_bundle
        (alInsert service
          (alInsert (submissionId nowDt)
            (freshSubmission (queueData wf wf_jsonyaml attach)
              wf.workflow_type wf_name sample)
            ((alLookup service store).getD []))
          store)
        service (submissionId nowDt) =
        some (freshSubmission (queueData wf wf_jsonyaml attach)
          wf.workflow_type wf_name sample) := by
      simp [get_submission_bundle, lookupSubmission, alLookup_alInsert_self]
    have hrun : run_submission wes_config run_workflow now
        (alInsert service
          (alInsert (submissionId nowDt)
            (freshSubmission (queueData wf wf_jsonyaml attach)
              wf.workflow_type wf_name sample)
            ((alLookup service store).getD []))
          store)
        service (submissionId nowDt) =
        (.error (.remote e),
         (alInsert service
          (alInsert (submissionId nowDt)
            (freshSubmission (queueData wf wf_jsonyaml attach)
              wf.workflow_type wf_name sample)
            ((alLookup service store).getD []))
          store)) := by
      simp only [run_submission, hbundle, hcfg]
      rw [show (freshSubmission (queueData wf wf_jsonyaml attach)
            wf.workflow_type wf_name sample).data = queueData wf wf_jsonyaml attach
          from rfl, hrw]
    constructor
    · simp only [no_queue_run, hq, hrun]
    · simp only [no_queue_run, hq, hrun]
      simp [lookupSubmission, alLookup_alInsert_self]

/-- Witness for C8: a failing remote start leaves the concrete store
unchanged, and a failing queue-then-run leaves the freshly queued
submission RECEIVED with no run. -/
theorem C8_remote_failure_witness :
    run_submission (fun _ => some "cfg")
        (fun _ _ => .error RemoteError.connectionError) 20
        [("e8", [("i8", freshSubmission
          { wf := "wf8", jsonyaml := "j8", attachments := [] } "CWL" "w8" "NA")])]
        "e8" "i8" =
      (.error (.remote RemoteError.connectionError),
       [("e8", [("i8", freshSubmission
         { wf := "wf8", jsonyaml := "j8", attachments := [] } "CWL" "w8" "NA")])]) ∧
    (no_queue_run
        (fun n => if n = "w8" then
          some { workflow_url := "wf8", workflow_type := "CWL",
                 workflow_attachments := ["att8"] } else none)
        (fun _ => some "cfg") (fun _ _ => .error RemoteError.connectionError)
        ⟨2018, 4, 8, 13, 2, 1, 818647⟩ 20 "e8" "w8" "j8" "NA" none [] =
      (.error (.remote RemoteError.connectionError),
       (queue
         (fun n => if n = "w8" then
           some { workflow_url := "wf8", workflow_type := "CWL",
                  workflow_attachments := ["att8"] } else none)
         ⟨2018, 4, 8, 13, 2, 1, 818647⟩ "e8" "w8" "j8" "NA" none []).2) ∧
     lookupSubmission
       (no_queue_run
         (fun n => if n = "w8" then
           some { workflow_url := "wf8", workflow_type := "CWL",
                  workflow_attachments := ["att8"] } else none)
         (fun _ => some "cfg") (fun _ _ => .error RemoteError.connectionError)
         ⟨2018, 4, 8, 13, 2, 1, 818647⟩ 20 "e8" "w8" "j8" "NA" none []).2
       "e8" (submissionId ⟨2018, 4, 8, 13, 2, 1, 818647⟩) =
       some (freshSubmission
         (queueData { workflow_url := "wf8", workflow_type := "CWL",
                      workflow_attachments := ["att8"] } "j8" none)
         "CWL" "w8" "NA")) :=
  ⟨C8_remote_failure_propagates_and_leaves_received.1 (fun _ => some "cfg")
      (fun _ _ => .error RemoteError.connectionError) 20
      [("e8", [("i8", freshSubmission
        { wf := "wf8", jsonyaml := "j8", attachments := [] } "CWL" "w8" "NA")])]
      "e8" "i8"
      (freshSubmission { wf := "wf8", jsonyaml := "j8", attachments := [] }
        "CWL" "w8" "NA")
      "cfg" RemoteError.connectionError (by decide) rfl rfl,
   C8_remote_failure_propagates_and_leaves_received.2
      (fun n => if n = "w8" then
        some { workflow_url := "wf8", workflow_type := "CWL",
               workflow_attachments := ["att8"] } else none)
      (fun _ => some "cfg") (fun _ _ => .error RemoteError.connectionError)
      ⟨2018, 4, 8, 13, 2, 1, 818647⟩ 20 "e8" "w8" "j8" "NA" none []
      { workflow_url := "wf8", workflow_type := "CWL",
        workflow_attachments := ["att8"] }
      "cfg" RemoteError.connectionError (by decide) rfl rfl⟩

/-- Claim C6: after every completed core operation the store satisfies the
invariant that a submission's `run` sub-record is present exactly when its
status is not RECEIVED.  The empty store satisfies it, and
`create_submission`, `queue`, `run_submission` and a `monitor_service`
pass each preserve it. -/
theorem C6_run_present_iff_not_received :
    runIffNotReceived [] = true ∧
    (∀ (wes_id : String) (d : SubmissionData) (wf_type wf_name sample : String)
       (t : DateTime) (store : Store), runIffNotReceived store = true →
       runIffNotReceived
         (create_submission wes_id d wf_type wf_name sample t store).2 = true) ∧
    (∀ (wf_config : String → Option WorkflowConfig) (now : DateTime)
       (service wf_name wf_jsonyaml sample : String)
       (attach : Option (List String)) (store : Store),
       runIffNotReceived store = true →
       runIffNotReceived
         (queue wf_config now service wf_name wf_jsonyaml sample attach store).2 = true) ∧
    (∀ (wes_config : String → Option String)
       (run_workflow : String → SubmissionData → Except RemoteError WorkflowStarted)
       (now : Nat) (store : Store) (wes_id submission_id : String),
       runIffNotReceived store = true →
       runIffNotReceived
         (run_submission wes_config run_workflow now store wes_id submission_id).2 = true) ∧
    (∀ (wes_config : String → Option String)
       (get_status : String → String → Except RemoteError String)
       (now : Nat) (store : Store) (wf_service : String),
       runIffNotReceived store = true →
       runIffNotReceived
         (monitor_service wes_config get_status now store wf_service).2 = true) :=
  ⟨rfl, inv_create, inv_queue, inv_run_submission, inv_monitor_service⟩

/-- Witness for C6: the invariant holds after a concrete dispatch and
after a concrete monitor pass. -/
theorem C6_run_present_iff_not_received_witness :
    runIffNotReceived
      (run_submission (fun _ => some "cfg") (fun _ _ => .ok { run_id := "r6" }) 30
        [("e6", [("i6", freshSubmission
          { wf := "wf6", jsonyaml := "j6", attachments := [] } "CWL" "w6" "NA")])]
        "e6" "i6").2 = true ∧
    runIffNotReceived
      (monitor_service (fun _ => some "cfg") (fun _ _ => .ok "RUNNING") 30
        [("e6", [("i6",
          { status := "SUBMITTED",
            data := { wf := "wf6", jsonyaml := "j6", attachments := [] },
            wf_id := "w6", type := "CWL", sample := "NA",
            run := some { run_id := "r6", start_time := 3,
                          state := none, elapsed_time := none } })])]
        "e6").2 = true :=
  ⟨C6_run_present_iff_not_received.2.2.2.1 (fun _ => some "cfg")
      (fun _ _ => .ok { run_id := "r6" }) 30
      [("e6", [("i6", freshSubmission
        { wf := "wf6", jsonyaml := "j6", attachments := [] } "CWL" "w6" "NA")])]
      "e6" "i6" (by decide),
   C6_run_present_iff_not_received.2.2.2.2 (fun _ => some "cfg")
      (fun _ _ => .ok "RUNNING") 30
      [("e6", [("i6",
        { status := "SUBMITTED",
          data := { wf := "wf6", jsonyaml := "j6", attachments := [] },
          wf_id := "w6", type := "CWL", sample := "NA",
          run := some { run_id := "r6", start_time := 3,
                        state := none, elapsed_time := none } })])]
      "e6" (by decide)⟩

/-- Claim C7: `run_next_queued` dispatches exactly the RECEIVED submission
with the smallest id when one exists, returns the distinct falsy
"nothing queued" signal with the store unchanged when none exists, and in
particular on an endpoint dict whose only RECEIVED submission is `i`
(with a successful remote start) a first call dispatches `i` and a second
call reports "nothing queued" without further changes. -/
theorem C7_run_next_queued_dispatches_smallest :
    (∀ (wes_config : String → Option String)
       (run_workflow : String → SubmissionData → Except RemoteError WorkflowStarted)
       (now : Nat) (store : Store) (wf_service : String) (q : List String),
       get_submissions store wf_service "RECEIVED" = some q → q ≠ [] →
       ∃ min_id, min_id ∈ q ∧ (∀ x ∈ q, strLe min_id x = true) ∧
         run_next_queued wes_config run_workflow now store wf_service =
           mapRanResult
             (run_submission wes_config run_workflow now store wf_service min_id)) ∧
    (∀ (wes_config : String → Option String)
       (run_workflow : String → SubmissionData → Except RemoteError WorkflowStarted)
       (now : Nat) (store : Store) (wf_service : String),
       get_submissions store wf_service "RECEIVED" = some [] →
       run_next_queued wes_config run_workflow now store wf_service =
         (.ok .nothingQueued, store)) ∧
    (∀ (wes_config : String → Option String)
       (run_workflow : String → SubmissionData → Except RemoteError WorkflowStarted)
       (now : Nat) (store : Store) (wf_service i : String) (m : SubMap)
       (sub : Submission) (cfg : String) (started : WorkflowStarted),
       alLookup wf_service store = some m →
       (m.map Prod.fst).Nodup →
       ((m.filter (fun p => p.2.status == "RECEIVED")).map (fun p => p.1)) = [i] →
       alLookup i m = some sub →
       wes_config wf_service = some cfg →
       run_workflow cfg sub.data = .ok started →
       run_next_queued wes_config run_workflow now store wf_service =
         (.ok (.ran { run_id := started.run_id, start_time := now,
                      state := none, elapsed_time := none }),
          alInsert wf_service
            (alInsert i
              { sub with status := "SUBMITTED",
                         run := some { run_id := started.run_id, start_time := now,
                                       state := none, elapsed_time := none } } m)
            store) ∧
       run_next_queued wes_config run_workflow now
         (alInsert wf_service
           (alInsert i
             { sub with status := "SUBMITTED",
                        run := some { run_id := started.run_id, start_time := now,
                                      state := none, elapsed_time := none } } m)
           store) wf_service =
         (.ok .nothingQueued,
          alInsert wf_service
            (alInsert i
              { sub with status := "SUBMITTED",
                         run := some { run_id := started.run_id, start_time := now,
                                       state := none, elapsed_time := none } } m)
            store)) := by
  refine ⟨?_, ?_, ?_⟩
  · intro wes_config run_workflow now store wf_service q hq hne
    cases hsort : sortIds q with
    | nil =>
        cases q with
        | nil => exact absurd rfl hne
        | cons x xs => exact absurd hsort (sortIds_ne_nil x xs)
    | cons m0 t0 =>
        obtain ⟨hmem, hmin⟩ := sortIds_head_min q m0 t0 hsort
        refine ⟨m0, hmem, hmin, ?_⟩
        have hesz : q.isEmpty = false := by
          cases q with
          | nil => exact absurd rfl hne
          | cons x xs => rfl
        simp [run_next_queued, hq, hesz, hsort]
  · intro wes_config run_workflow now store wf_service h
    simp [run_next_queued, h]
  · intro wes_config run_workflow now store wf_service i m sub cfg started
      hm hnd hfilter hsub hcfg hrw
    have hq : get_submissions store wf_service "RECEIVED" = some [i] := by
      simp [get_submissions, hm, hfilter]
    have hrs := run_submission_ok_eq wes_config run_workflow now store wf_service i
      m sub cfg started hm hsub hcfg hrw
    have hsort : sortIds [i] = [i] := rfl
    constructor
    · simp [run_next_queued, hq, hsort, hrs, mapRanResult]
    · have hfempty : (((alInsert i
          { sub with status := "SUBMITTED",
                     run := some { run_id := started.run_id, start_time := now,
                                   state := none, elapsed_time := none } } m).filter
          (fun p => p.2.status == "RECEIVED")).map (fun p => p.1)) = [] :=
        filter_received_alInsert m i
          { sub with status := "SUBMITTED",
                     run := some { run_id := started.run_id, start_time := now,
                                   state := none, elapsed_time := none } }
          hnd rfl hfilter
      have hq2 : get_submissions
          (alInsert wf_service
            (alInsert i
              { sub with status := "SUBMITTED",
                         run := some { run_id := started.run_id, start_time := now,
                                       state := none, elapsed_time := none } } m)
            store) wf_service "RECEIVED" = some [] := by
        simp [get_submissions, alLookup_alInsert_self, hfempty]
      simp [run_next_queued, hq2]

/-- Witness for C7: on an endpoint with two RECEIVED submissions the
smaller id is picked, on an endpoint with none the falsy signal comes
back, and the queue-of-one scenario dispatches once then reports nothing
queued. -/
theorem C7_run_next_queued_dispatches_smallest_witness :
    (∃ min_id, min_id ∈ ["b7", "a7"] ∧
       (∀ x ∈ ["b7", "a7"], strLe min_id x = true) ∧
       run_next_queued (fun _ => some "cfg") (fun _ _ => .ok { run_id := "r7" }) 40
           [("e7", [("b7", freshSubmission
              { wf := "wfb", jsonyaml := "jb", attachments := [] } "CWL" "wb" "NA"),
             ("a7", freshSubmission
              { wf := "wfa", jsonyaml := "ja", attachments := [] } "CWL" "wa" "NA")])]
           "e7" =
         mapRanResult
           (run_submission (fun _ => some "cfg") (fun _ _ => .ok { run_id := "r7" })
             40
             [("e7", [("b7", freshSubmission
                { wf := "wfb", jsonyaml := "jb", attachments := [] } "CWL" "wb" "NA"),
               ("a7", freshSubmission
                { wf := "wfa", jsonyaml := "ja", attachments := [] } "CWL" "wa" "NA")])]
             "e7" min_id)) ∧
    run_next_queued (fun _ => some "cfg") (fun _ _ => .ok { run_id := "r7" }) 40
        [("e7", [])] "e7" = (.ok .nothingQueued, [("e7", [])]) ∧
    (run_next_queued (fun _ => some "cfg") (fun _ _ => .ok { run_id := "r7" }) 40
        [("e7", [("i7", freshSubmission
          { wf := "wf7", jsonyaml := "j7", attachments := [] } "CWL" "w7" "NA")])]
        "e7" =
      (.ok (.ran { run_id := "r7", start_time := 40,
                   state := none, elapsed_time := none }),
       alInsert "e7"
         (alInsert "i7"
           { freshSubmission { wf := "wf7", jsonyaml := "j7", attachments := [] }
               "CWL" "w7" "NA" with
             status := "SUBMITTED",
             run := some { run_id := "r7", start_time := 40,
                           state := none, elapsed_time := none } }
           [("i7", freshSubmission
             { wf := "wf7", jsonyaml := "j7", attachments := [] } "CWL" "w7" "NA")])
         [("e7", [("i7", freshSubmission
           { wf := "wf7", jsonyaml := "j7", attachments := [] } "CWL" "w7" "NA")])]) ∧
     run_next_queued (fun _ => some "cfg") (fun _ _ => .ok { run_id := "r7" }) 40
        (alInsert "e7"
          (alInsert "i7"
            { freshSubmission { wf := "wf7", jsonyaml := "j7", attachments := [] }
                "CWL" "w7" "NA" with
              status := "SUBMITTED",
              run := some { run_id := "r7", start_time := 40,
                            state := none, elapsed_time := none } }
            [("i7", freshSubmission
              { wf := "wf7", jsonyaml := "j7", attachments := [] } "CWL" "w7" "NA")])
          [("e7", [("i7", freshSubmission
            { wf := "wf7", jsonyaml := "j7", attachments := [] } "CWL" "w7" "NA")])])
        "e7" =
      (.ok .nothingQueued,
       alInsert "e7"
         (alInsert "i7"
           { freshSubmission { wf := "wf7", jsonyaml := "j7", attachments := [] }
               "CWL" "w7" "NA" with
             status := "SUBMITTED",
             run := some { run_id := "r7", start_time := 40,
                           state := none, elapsed_time := none } }
           [("i7", freshSubmission
             { wf := "wf7", jsonyaml := "j7", attachments := [] } "CWL" "w7" "NA")])
         [("e7", [("i7", freshSubmission
           { wf := "wf7", jsonyaml := "j7", attachments := [] } "CWL" "w7" "NA")])])) :=
  ⟨C7_run_next_queued_dispatches_smallest.1 (fun _ => some "cfg")
      (fun _ _ => .ok { run_id := "r7" }) 40
      [("e7", [("b7", freshSubmission
         { wf := "wfb", jsonyaml := "jb", attachments := [] } "CWL" "wb" "NA"),
        ("a7", freshSubmission
         { wf := "wfa", jsonyaml := "ja", attachments := [] } "CWL" "wa" "NA")])]
      "e7" ["b7", "a7"] (by decide) (by decide),
   C7_run_next_queued_dispatches_smallest.2.1 (fun _ => some "cfg")
      (fun _ _ => .ok { run_id := "r7" }) 40 [("e7", [])] "e7" (by decide),
   C7_run_next_queued_dispatches_smallest.2.2 (fun _ => some "cfg")
      (fun _ _ => .ok { run_id := "r7" }) 40
      [("e7", [("i7", freshSubmission
        { wf := "wf7", jsonyaml := "j7", attachments := [] } "CWL" "w7" "NA")])]
      "e7" "i7"
      [("i7", freshSubmission
        { wf := "wf7", jsonyaml := "j7", attachments := [] } "CWL" "w7" "NA")]
      (freshSubmission { wf := "wf7", jsonyaml := "j7", attachments := [] }
        "CWL" "w7" "NA")
      "cfg" { run_id := "r7" }
      (by decide) (by decide) (by decide) (by decide) rfl rfl⟩

end Synorchestrator
